import Mathlib

/-!
Shallow embedding of the pyFishTank persistence and domain-manager layer
(src/models/tank.py, fish.py, maintenance.py, water_params.py,
src/services/managers.py, src/services/data_manager.py, src/api/app.py).

Python strings are Lean `String`; UUIDs and ISO-8601 dates are kept in their
canonical string form (the managers always store `str(uuid)` / `isoformat()`
and parse the same text back, so on canonical data that round trip is the
identity); Python floats are `Rat`; `Optional[...]` is `Option`;
a raised exception during record conversion is `Except.error`.
SQLite text comparison (used by `ORDER BY date DESC`) is modelled by a
byte-wise/codepoint-wise comparison on the characters of the stored string.
-/

/-- Codepoint-wise lexicographic `≤` on character lists.  Models SQLite's
BINARY collation used when the managers issue `ORDER BY date DESC` over
ISO-8601 text columns. -/
def charListLe : List Char → List Char → Bool
  | [], _ => true
  | _ :: _, [] => false
  | a :: as, b :: bs =>
    if a.toNat < b.toNat then true
    else if b.toNat < a.toNat then false
    else charListLe as bs

def charListLe_total : ∀ x y, charListLe x y = true ∨ charListLe y x = true
  | [], _ => Or.inl rfl
  | _ :: _, [] => Or.inr rfl
  | a :: as, b :: bs => by
    simp only [charListLe]
    rcases Nat.lt_trichotomy a.toNat b.toNat with h | h | h
    · left; simp [h]
    · have h1 : ¬ a.toNat < b.toNat := by omega
      have h2 : ¬ b.toNat < a.toNat := by omega
      rcases charListLe_total as bs with ih | ih
      · left; simp [h1, h2, ih]
      · right; simp [h1, h2, ih]
    · right; simp [h]

def charListLe_trans :
    ∀ x y z, charListLe x y = true → charListLe y z = true → charListLe x z = true
  | [], _, _, _, _ => rfl
  | _ :: _, [], _, h, _ => by simp [charListLe] at h
  | _ :: _, _ :: _, [], _, h => by simp [charListLe] at h
  | a :: as, b :: bs, c :: cs, h1, h2 => by
    simp only [charListLe] at h1 h2 ⊢
    rcases Nat.lt_trichotomy a.toNat b.toNat with hab | hab | hab
    · rcases Nat.lt_trichotomy b.toNat c.toNat with hbc | hbc | hbc
      · simp [show a.toNat < c.toNat by omega]
      · simp [show a.toNat < c.toNat by omega]
      · exfalso
        have h2' : ¬ b.toNat < c.toNat := by omega
        simp [h2', hbc] at h2
    · rcases Nat.lt_trichotomy b.toNat c.toNat with hbc | hbc | hbc
      · simp [show a.toNat < c.toNat by omega]
      · have h1' : ¬ a.toNat < b.toNat := by omega
        have h1'' : ¬ b.toNat < a.toNat := by omega
        have h2' : ¬ b.toNat < c.toNat := by omega
        have h2'' : ¬ c.toNat < b.toNat := by omega
        rw [if_neg h1', if_neg h1''] at h1
        rw [if_neg h2', if_neg h2''] at h2
        rw [if_neg (show ¬ a.toNat < c.toNat by omega),
          if_neg (show ¬ c.toNat < a.toNat by omega)]
        exact charListLe_trans as bs cs h1 h2
      · exfalso
        have h2' : ¬ b.toNat < c.toNat := by omega
        simp [h2', hbc] at h2
    · exfalso
      have h1' : ¬ a.toNat < b.toNat := by omega
      simp [h1', hab] at h1

/-- Descending order by a string key, as delivered by `ORDER BY key DESC`. -/
def descByKey {α : Type} (key : α → String) (a b : α) : Prop :=
  charListLe (key b).toList (key a).toList = true

instance {α : Type} (key : α → String) : DecidableRel (descByKey key) :=
  fun _ _ => inferInstanceAs (Decidable (_ = true))

instance {α : Type} (key : α → String) : IsTotal α (descByKey key) :=
  ⟨fun a b => charListLe_total (key b).toList (key a).toList⟩

instance {α : Type} (key : α → String) : IsTrans α (descByKey key) :=
  ⟨fun _ _ _ h1 h2 => charListLe_trans _ _ _ h2 h1⟩

/-- The row order produced by `ORDER BY key DESC` (a stable sort already
restricted to sortedness, which is all that SQLite guarantees). -/
def sortByKeyDesc {α : Type} (key : α → String) (l : List α) : List α :=
  List.insertionSort (descByKey key) l

/-- Left-to-right effectful map over a list, aborting at the first failure:
the behavior of a Python list comprehension whose element conversion may
raise. -/
def exceptMapM {α β : Type} (f : α → Except String β) : List α → Except String (List β)
  | [] => Except.ok []
  | a :: as =>
    match f a with
    | Except.error e => Except.error e
    | Except.ok b =>
      match exceptMapM f as with
      | Except.error e => Except.error e
      | Except.ok bs => Except.ok (b :: bs)

/-- Python `str.strip()` (both-ends whitespace removal), on the ASCII
whitespace actually produced by the managers. -/
def pyStrip (s : String) : String :=
  (((s.toList.dropWhile Char.isWhitespace).reverse.dropWhile Char.isWhitespace).reverse).asString

/-- Decimal digit characters of a natural number (fuel-based so that it
reduces definitionally; `n + 1` units of fuel always suffice). -/
def natDigitsAux : Nat → Nat → List Char
  | 0, _ => []
  | fuel + 1, n =>
    if n < 10 then [Char.ofNat (48 + n)]
    else natDigitsAux fuel (n / 10) ++ [Char.ofNat (48 + n % 10)]

def natDigits (n : Nat) : List Char := natDigitsAux (n + 1) n

/-- Python `str(i)` for an `int` value: optional minus sign followed by the
decimal digits. -/
def intToStr (i : Int) : String :=
  if i < 0 then ('-' :: natDigits i.natAbs).asString else (natDigits i.toNat).asString

/-- Python `",".join(xs)`. -/
def joinComma (xs : List String) : String :=
  (List.intercalate [','] (xs.map String.toList)).asString

/-- Python `s.split(",")` (keeps empty pieces; `""` yields `[""]`). -/
def splitComma (s : String) : List String :=
  (s.toList.splitOn ',').map List.asString

/-! ## Entity types (src/models) -/

/-- src/models/water_params.py — `WaterParameters` value object.  `date_tested`
is kept in ISO-8601 string form; each measurement is optional. -/
structure WaterParameters where
  date_tested : String
  temperature : Option Rat
  ph : Option Rat
  ammonia : Option Rat
  nitrite : Option Rat
  nitrate : Option Rat
  salinity : Option Rat
deriving DecidableEq

/-- src/models/tank.py — `Tank` dataclass fields. -/
structure Tank where
  id : String
  name : String
  size_gallons : Rat
  tank_type : String
  location : String
  equipment : List String
  current_parameters : Option WaterParameters
deriving DecidableEq

def VALID_TANK_TYPES : List String := ["freshwater", "saltwater", "brackish"]

/-- Construction via `Tank(...)`, including `Tank.__post_init__` validation:
invalid `tank_type` and non-positive `size_gallons` raise `ValueError`;
no other field is checked. -/
def mkTank (id name : String) (size_gallons : Rat) (tank_type location : String)
    (equipment : List String) (current_parameters : Option WaterParameters) :
    Except String Tank :=
  if tank_type ∈ VALID_TANK_TYPES then
    if size_gallons ≤ 0 then Except.error "Tank size must be positive"
    else Except.ok ⟨id, name, size_gallons, tank_type, location, equipment, current_parameters⟩
  else Except.error "Invalid tank type"

/-- src/models/fish.py — `Fish` dataclass fields. -/
structure Fish where
  id : String
  name : String
  species : String
  tank_id : String
  date_added : String
  birth_date : Option String
  health_status : String
  size : Option String
  color : Option String
  feeding_preferences : Option String
  notes : Option String
deriving DecidableEq

def VALID_HEALTH_STATUSES : List String := ["healthy", "sick", "recovering", "deceased"]

/-- Construction via `Fish(...)`, including `Fish.__post_init__` validation:
only `health_status` is checked; name and species may be any string. -/
def mkFish (id name species tank_id date_added : String) (birth_date : Option String)
    (health_status : String) (size color feeding_preferences notes : Option String) :
    Except String Fish :=
  if health_status ∈ VALID_HEALTH_STATUSES then
    Except.ok ⟨id, name, species, tank_id, date_added, birth_date, health_status,
      size, color, feeding_preferences, notes⟩
  else Except.error "Invalid health status"

/-- src/models/maintenance.py — `MaintenanceLog` dataclass fields. -/
structure MaintenanceLog where
  id : String
  tank_id : String
  date : String
  activity_type : String
  description : String
  water_params : Option WaterParameters
deriving DecidableEq

def VALID_ACTIVITY_TYPES : List String :=
  ["water_change", "filter_clean", "feeding", "water_test", "equipment_check", "medication"]

/-- Construction via `MaintenanceLog(...)`, including
`MaintenanceLog.__post_init__` validation: only `activity_type` is checked. -/
def mkLog (id tank_id date activity_type description : String)
    (water_params : Option WaterParameters) : Except String MaintenanceLog :=
  if activity_type ∈ VALID_ACTIVITY_TYPES then
    Except.ok ⟨id, tank_id, date, activity_type, description, water_params⟩
  else Except.error "Invalid activity type"

/-! ## The relational store (src/services/data_manager.py schema) -/

/-- A row of the `tanks` table; `equipment` is the comma-joined string. -/
structure TankRow where
  id : String
  name : String
  size_gallons : Rat
  tank_type : String
  location : String
  equipment : String
deriving DecidableEq

/-- A row of the `water_parameters` table; `rowid` is the autoincrement PK. -/
structure WaterParamRow where
  rowid : Nat
  tank_id : String
  date_tested : String
  temperature : Option Rat
  ph : Option Rat
  ammonia : Option Rat
  nitrite : Option Rat
  nitrate : Option Rat
  salinity : Option Rat
deriving DecidableEq

/-- A row of the `fish` table. -/
structure FishRow where
  id : String
  name : String
  species : String
  tank_id : String
  date_added : String
  birth_date : Option String
  health_status : String
  size : Option String
  color : Option String
  feeding_preferences : Option String
  notes : Option String
deriving DecidableEq

/-- A row of the `maintenance_logs` table. -/
structure LogRow where
  id : String
  tank_id : String
  date : String
  activity_type : String
  description : String
  water_params_id : Option Nat
deriving DecidableEq

/-- The SQLite database state: the four tables plus the autoincrement counter
of `water_parameters` (SQLite rowids start at 1). -/
structure Store where
  tanks : List TankRow
  waterParams : List WaterParamRow
  fish : List FishRow
  logs : List LogRow
  nextParamId : Nat
deriving DecidableEq

/-! ## TankManager (src/services/managers.py) -/

namespace TankManager

/-- Model of `TankManager._row_to_tank`: decode one `tanks` row, running the entity
validation; `equipment` is split on commas unless empty. -/
def row_to_tank (r : TankRow) : Except String Tank :=
  mkTank r.id r.name r.size_gallons r.tank_type r.location
    (if r.equipment = "" then [] else splitComma r.equipment) none

/-- Model of `TankManager._get_latest_params`: the `water_parameters` row for this tank
with the greatest `date_tested` (`ORDER BY date_tested DESC LIMIT 1`). -/
def get_latest_params (s : Store) (tank_id : String) : Option WaterParameters :=
  match sortByKeyDesc (fun w : WaterParamRow => w.date_tested)
      (s.waterParams.filter (fun w => w.tank_id == tank_id)) with
  | [] => none
  | w :: _ => some ⟨w.date_tested, w.temperature, w.ph, w.ammonia, w.nitrite, w.nitrate, w.salinity⟩

/-- Model of `TankManager.get_all`. -/
def get_all (s : Store) : Except String (List Tank) :=
  exceptMapM
    (fun r => (row_to_tank r).map
      (fun t => { t with current_parameters := get_latest_params s t.id }))
    s.tanks

/-- Model of `TankManager.get_by_id`. -/
def get_by_id (s : Store) (tank_id : String) : Except String (Option Tank) :=
  match s.tanks.find? (fun r => r.id == tank_id) with
  | none => Except.ok none
  | some r => (row_to_tank r).map
      (fun t => some { t with current_parameters := get_latest_params s t.id })

/-- Model of `TankManager.add` (INSERT INTO tanks). -/
def add (s : Store) (t : Tank) : Store :=
  { s with tanks := s.tanks ++
      [⟨t.id, t.name, t.size_gallons, t.tank_type, t.location, joinComma t.equipment⟩] }

/-- Model of `TankManager.update` (UPDATE tanks ... WHERE id = ?); the flag is
`cursor.rowcount > 0`. -/
def update (s : Store) (t : Tank) : Store × Bool :=
  ({ s with tanks := s.tanks.map (fun r =>
      if r.id == t.id then
        ⟨r.id, t.name, t.size_gallons, t.tank_type, t.location, joinComma t.equipment⟩
      else r) },
   s.tanks.any (fun r => r.id == t.id))

/-- Model of `TankManager.delete` (DELETE FROM tanks WHERE id = ?). -/
def delete (s : Store) (tank_id : String) : Store × Bool :=
  ({ s with tanks := s.tanks.filter (fun r => ! (r.id == tank_id)) },
   s.tanks.any (fun r => r.id == tank_id))

/-- Model of `TankManager.update_water_params`: inserts a fresh `water_parameters`
row and returns `True` unconditionally. -/
def update_water_params (s : Store) (tank_id : String) (p : WaterParameters) : Store × Bool :=
  ({ s with
      waterParams := s.waterParams ++
        [⟨s.nextParamId, tank_id, p.date_tested, p.temperature, p.ph,
          p.ammonia, p.nitrite, p.nitrate, p.salinity⟩],
      nextParamId := s.nextParamId + 1 },
   true)

end TankManager

/-! ## FishManager (src/services/managers.py) -/

namespace FishManager

/-- Model of `FishManager._row_to_fish`: decode one `fish` row, running the entity
validation (which checks `health_status`). -/
def row_to_fish (r : FishRow) : Except String Fish :=
  mkFish r.id r.name r.species r.tank_id r.date_added r.birth_date r.health_status
    r.size r.color r.feeding_preferences r.notes

/-- Model of `FishManager.get_all`. -/
def get_all (s : Store) : Except String (List Fish) :=
  exceptMapM row_to_fish s.fish

/-- Model of `FishManager.get_by_id`. -/
def get_by_id (s : Store) (fish_id : String) : Except String (Option Fish) :=
  match s.fish.find? (fun r => r.id == fish_id) with
  | none => Except.ok none
  | some r => (row_to_fish r).map some

/-- Model of `FishManager.get_by_tank` (SELECT * FROM fish WHERE tank_id = ?). -/
def get_by_tank (s : Store) (tank_id : String) : Except String (List Fish) :=
  exceptMapM row_to_fish (s.fish.filter (fun r => r.tank_id == tank_id))

/-- Model of `FishManager.add` (INSERT INTO fish). -/
def add (s : Store) (f : Fish) : Store :=
  { s with fish := s.fish ++
      [⟨f.id, f.name, f.species, f.tank_id, f.date_added, f.birth_date, f.health_status,
        f.size, f.color, f.feeding_preferences, f.notes⟩] }

/-- Model of `FishManager.update` (UPDATE fish SET ... WHERE id = ?). -/
def update (s : Store) (f : Fish) : Store × Bool :=
  ({ s with fish := s.fish.map (fun r =>
      if r.id == f.id then
        ⟨r.id, f.name, f.species, f.tank_id, f.date_added, f.birth_date, f.health_status,
          f.size, f.color, f.feeding_preferences, f.notes⟩
      else r) },
   s.fish.any (fun r => r.id == f.id))

/-- Model of `FishManager.move_to_tank` (UPDATE fish SET tank_id = ? WHERE id = ?). -/
def move_to_tank (s : Store) (fish_id new_tank_id : String) : Store × Bool :=
  ({ s with fish := s.fish.map (fun r =>
      if r.id == fish_id then { r with tank_id := new_tank_id } else r) },
   s.fish.any (fun r => r.id == fish_id))

/-- Model of `FishManager.update_health_status`: returns `False` without touching the
database when the status is not one of the four valid values; otherwise an
UPDATE whose success flag is `rowcount > 0`. -/
def update_health_status (s : Store) (fish_id status : String) : Store × Bool :=
  if status ∈ VALID_HEALTH_STATUSES then
    ({ s with fish := s.fish.map (fun r =>
        if r.id == fish_id then { r with health_status := status } else r) },
     s.fish.any (fun r => r.id == fish_id))
  else (s, false)

/-- Model of `FishManager.delete` (DELETE FROM fish WHERE id = ?). -/
def delete (s : Store) (fish_id : String) : Store × Bool :=
  ({ s with fish := s.fish.filter (fun r => ! (r.id == fish_id)) },
   s.fish.any (fun r => r.id == fish_id))

/-- Model of `FishManager.delete_by_tank`: bulk delete, returning the rowcount. -/
def delete_by_tank (s : Store) (tank_id : String) : Store × Nat :=
  ({ s with fish := s.fish.filter (fun r => ! (r.tank_id == tank_id)) },
   (s.fish.filter (fun r => r.tank_id == tank_id)).length)

end FishManager

/-! ## MaintenanceManager (src/services/managers.py) -/

namespace MaintenanceManager

/-- Model of `MaintenanceManager._row_to_log`: decode one `maintenance_logs` row;
a truthy (non-null, nonzero) `water_params_id` is looked up in
`water_parameters`; entity validation checks `activity_type`. -/
def row_to_log (s : Store) (r : LogRow) : Except String MaintenanceLog :=
  let wp : Option WaterParameters :=
    match r.water_params_id with
    | none => none
    | some pid =>
      if pid = 0 then none
      else
        match s.waterParams.find? (fun w => w.rowid == pid) with
        | none => none
        | some w => some ⟨w.date_tested, w.temperature, w.ph, w.ammonia,
            w.nitrite, w.nitrate, w.salinity⟩
  mkLog r.id r.tank_id r.date r.activity_type r.description wp

/-- Model of `MaintenanceManager.get_all` (ORDER BY date DESC). -/
def get_all (s : Store) : Except String (List MaintenanceLog) :=
  exceptMapM (row_to_log s) (sortByKeyDesc (fun r : LogRow => r.date) s.logs)

/-- Model of `MaintenanceManager.get_by_tank` (WHERE tank_id = ? ORDER BY date DESC). -/
def get_by_tank (s : Store) (tank_id : String) : Except String (List MaintenanceLog) :=
  exceptMapM (row_to_log s)
    (sortByKeyDesc (fun r : LogRow => r.date) (s.logs.filter (fun r => r.tank_id == tank_id)))

/-- Model of `MaintenanceManager.get_recent` (ORDER BY date DESC LIMIT ?). -/
def get_recent (s : Store) (limit : Nat) : Except String (List MaintenanceLog) :=
  exceptMapM (row_to_log s) ((sortByKeyDesc (fun r : LogRow => r.date) s.logs).take limit)

/-- Model of `MaintenanceManager.get_by_activity_type`, optionally filtered by tank;
both branches ORDER BY date DESC. -/
def get_by_activity_type (s : Store) (activity_type : String) (tank_id : Option String) :
    Except String (List MaintenanceLog) :=
  let rows :=
    match tank_id with
    | some tid => s.logs.filter (fun r => r.activity_type == activity_type && r.tank_id == tid)
    | none => s.logs.filter (fun r => r.activity_type == activity_type)
  exceptMapM (row_to_log s) (sortByKeyDesc (fun r : LogRow => r.date) rows)

/-- Model of `MaintenanceManager.add`: when the log carries water parameters, first
insert them as a `water_parameters` row (autoincrement id), then insert the
log row referencing that id. -/
def add (s : Store) (log : MaintenanceLog) : Store :=
  match log.water_params with
  | some wp =>
    { s with
        waterParams := s.waterParams ++
          [⟨s.nextParamId, log.tank_id, wp.date_tested, wp.temperature, wp.ph,
            wp.ammonia, wp.nitrite, wp.nitrate, wp.salinity⟩],
        logs := s.logs ++
          [⟨log.id, log.tank_id, log.date, log.activity_type, log.description,
            some s.nextParamId⟩],
        nextParamId := s.nextParamId + 1 }
  | none =>
    { s with logs := s.logs ++
        [⟨log.id, log.tank_id, log.date, log.activity_type, log.description, none⟩] }

/-- The description built by `MaintenanceManager.log_water_change`:
`if percentage:` is Python truthiness, so `None` and `0` leave the
description untouched; otherwise the f-string result is `.strip()`-ped. -/
def water_change_description (description : String) (percentage : Option Int) : String :=
  match percentage with
  | some p =>
    if p = 0 then description
    else pyStrip (intToStr p ++ "% water change. " ++ description)
  | none => description

/-- Model of `MaintenanceManager.log_water_change`.  The uuid4 identifier and the
`datetime.now()` timestamp generated inside `MaintenanceLog(...)` are passed
explicitly as `fresh_id` and `now`; the constant activity type
`"water_change"` passes the `__post_init__` check (see
`log_water_change_valid`). -/
def log_water_change (s : Store) (tank_id description : String) (percentage : Option Int)
    (fresh_id now : String) : Store × MaintenanceLog :=
  let log : MaintenanceLog :=
    ⟨fresh_id, tank_id, now, "water_change", water_change_description description percentage, none⟩
  (add s log, log)

/-- Model of `MaintenanceManager.delete_by_tank`: first DELETE the referenced
`water_parameters` rows (the SQL `IN` subquery matches only non-null ids),
then DELETE the logs, returning the log rowcount. -/
def delete_by_tank (s : Store) (tank_id : String) : Store × Nat :=
  let wpids := (s.logs.filter (fun r => r.tank_id == tank_id)).filterMap
    (fun r => r.water_params_id)
  ({ s with
      waterParams := s.waterParams.filter (fun w => ! wpids.contains w.rowid),
      logs := s.logs.filter (fun r => ! (r.tank_id == tank_id)) },
   (s.logs.filter (fun r => r.tank_id == tank_id)).length)

end MaintenanceManager

/-- Model of `delete_tank` in src/api/app.py: the caller-driven three-step cascade —
fish first, then maintenance logs, then the tank row. -/
def cascade_delete_tank (s : Store) (tank_id : String) : Store :=
  let s1 := (FishManager.delete_by_tank s tank_id).1
  let s2 := (MaintenanceManager.delete_by_tank s1 tank_id).1
  (TankManager.delete s2 tank_id).1

/-! ## Claim-level predicates and concrete sample data -/

/-- Predicate "sorted by event date descending (most recent first)": each element's
date is `≥` (in stored-text order) every later element's date. -/
def dateSortedDesc (l : List MaintenanceLog) : Prop :=
  List.Pairwise (fun a b => charListLe b.date.toList a.date.toList = true) l

/-- Predicate "the string `s` begins with the phrase `pre`". -/
def strBegins (pre s : String) : Prop :=
  s.toList.take pre.toList.length = pre.toList

/-- A database with empty tables and the initial autoincrement counter. -/
def emptyStore : Store := ⟨[], [], [], [], 1⟩

def c1GoodRow : FishRow :=
  ⟨"f1", "Nemo", "clownfish", "t1", "2024-01-01", none, "healthy", none, none, none, none⟩

def c1BadRow : FishRow :=
  ⟨"f2", "Dory", "tang", "t1", "2024-01-02", none, "bogus", none, none, none, none⟩

def c1Store : Store := ⟨[], [], [c1GoodRow, c1BadRow], [], 1⟩

def c1GoodFish : Fish :=
  ⟨"f1", "Nemo", "clownfish", "t1", "2024-01-01", none, "healthy", none, none, none, none⟩

def c1BadTankRow : TankRow := ⟨"t9", "Bad", 10, "reef", "", ""⟩

def c1BadLogRow : LogRow := ⟨"m9", "t1", "2024-01-01", "bogus", "", none⟩

def c1TankStore : Store := ⟨[c1BadTankRow], [], [], [], 1⟩

def c1LogStore : Store := ⟨[], [], [], [c1BadLogRow], 1⟩

def c2Params : WaterParameters := ⟨"2024-01-01T00:00:00", none, none, none, none, none, none⟩

def c2OldRow : WaterParamRow :=
  ⟨1, "t1", "2024-01-01T00:00:00", none, none, none, none, none, none⟩

def c2WitStore : Store := ⟨[], [c2OldRow], [], [], 2⟩

def c2NewParams : WaterParameters :=
  ⟨"2024-06-01T00:00:00", some 78, none, none, none, none, none⟩

def logRowJan : LogRow := ⟨"m1", "t1", "2024-01-01", "feeding", "", none⟩

def logRowMar : LogRow := ⟨"m2", "t1", "2024-03-01", "feeding", "", none⟩

def logRowFeb : LogRow := ⟨"m3", "t1", "2024-02-01", "feeding", "", none⟩

def c3Store : Store := ⟨[], [], [], [logRowJan, logRowMar, logRowFeb], 1⟩

def logJan : MaintenanceLog := ⟨"m1", "t1", "2024-01-01", "feeding", "", none⟩

def logMar : MaintenanceLog := ⟨"m2", "t1", "2024-03-01", "feeding", "", none⟩

def logFeb : MaintenanceLog := ⟨"m3", "t1", "2024-02-01", "feeding", "", none⟩

def c6Store : Store :=
  ⟨[⟨"t1", "Alpha", 10, "freshwater", "", ""⟩], [],
   [⟨"f1", "Nemo", "clownfish", "t1", "2024-01-01", none, "healthy", none, none, none, none⟩],
   [], 1⟩

def c6Tank : Tank := ⟨"t2", "Beta", 20, "saltwater", "", [], none⟩

def c6Fish : Fish :=
  ⟨"f2", "Dory", "tang", "t1", "2024-01-02", none, "healthy", none, none, none, none⟩

def c8WP : WaterParameters := ⟨"2024-01-01T00:00:00", some 78, none, none, none, none, none⟩

def c8Tank : Tank := ⟨"t1", "Reef", 10, "freshwater", "", [], some c8WP⟩

def c8Log : MaintenanceLog :=
  ⟨"m1", "t1", "2024-05-01T10:00:00", "water_test", "params tested", some c8WP⟩

def c10Tank : Tank := ⟨"t1", "Gamma", 30, "brackish", "closet", ["filter"], none⟩

/-! ## Helper lemmas -/

theorem sortByKeyDesc_sorted {α : Type} (key : α → String) (l : List α) :
    List.Sorted (descByKey key) (sortByKeyDesc key l) :=
  List.sorted_insertionSort _ l

theorem sortByKeyDesc_perm {α : Type} (key : α → String) (l : List α) :
    (sortByKeyDesc key l).Perm l :=
  List.perm_insertionSort _ l

theorem exceptMapM_forall₂ {α β : Type} (f : α → Except String β) :
    ∀ l ys, exceptMapM f l = Except.ok ys → List.Forall₂ (fun a b => f a = Except.ok b) l ys := by
  intro l
  induction l with
  | nil =>
    intro ys h
    simp only [exceptMapM] at h
    cases h
    exact List.Forall₂.nil
  | cons a as ih =>
    intro ys h
    simp only [exceptMapM] at h
    cases hfa : f a with
    | error e => rw [hfa] at h; cases h
    | ok b =>
      rw [hfa] at h
      cases hrest : exceptMapM f as with
      | error e => rw [hrest] at h; cases h
      | ok bs =>
        rw [hrest] at h
        cases h
        exact List.Forall₂.cons hfa (ih bs hrest)

theorem exceptMapM_error_of_mem {α β : Type} (f : α → Except String β) :
    ∀ l a, a ∈ l → (f a).isOk = false → ∃ e, exceptMapM f l = Except.error e := by
  intro l
  induction l with
  | nil => intro a ha _; cases ha
  | cons x xs ih =>
    intro a ha hbad
    cases hfx : f x with
    | error e => exact ⟨e, by simp only [exceptMapM, hfx]⟩
    | ok b =>
      rcases List.mem_cons.mp ha with rfl | ha'
      · rw [hfx] at hbad; simp [Except.isOk, Except.toBool] at hbad
      · obtain ⟨e, he⟩ := ih a ha' hbad
        exact ⟨e, by simp only [exceptMapM, hfx, he]⟩

theorem filter_not_filter {α : Type} (p : α → Bool) (l : List α) :
    List.filter p (List.filter (fun a => ! p a) l) = [] := by
  rw [List.filter_filter]
  simp

theorem row_to_tank_ok_id (r : TankRow) (t : Tank)
    (h : TankManager.row_to_tank r = Except.ok t) : t.id = r.id := by
  simp only [TankManager.row_to_tank, mkTank] at h
  split_ifs at h
  all_goals cases h
  all_goals rfl

theorem row_to_log_ok_date (s : Store) (r : LogRow) (x : MaintenanceLog)
    (h : MaintenanceManager.row_to_log s r = Except.ok x) : x.date = r.date := by
  simp only [MaintenanceManager.row_to_log, mkLog] at h
  split_ifs at h
  all_goals cases h
  rfl

theorem sorted_logs_of_mapM (s : Store) (rows : List LogRow) (l : List MaintenanceLog)
    (hs : List.Sorted (descByKey (fun r : LogRow => r.date)) rows)
    (h : exceptMapM (MaintenanceManager.row_to_log s) rows = Except.ok l) :
    dateSortedDesc l := by
  have hf := exceptMapM_forall₂ _ rows l h
  have hdates : l.map (fun x => x.date) = rows.map (fun r => r.date) := by
    clear hs h
    induction hf with
    | nil => rfl
    | cons hab _ ih =>
      simp only [List.map, List.cons.injEq]
      exact ⟨row_to_log_ok_date _ _ _ hab, ih⟩
  have h1 : List.Pairwise (fun a b : String => charListLe b.toList a.toList = true)
      (rows.map (fun r => r.date)) := List.pairwise_map.mpr hs
  rw [← hdates] at h1
  exact List.pairwise_map.mp h1

theorem natDigitsAux_head : ∀ fuel n, 0 < fuel →
    ∃ c cs, natDigitsAux fuel n = c :: cs ∧ c.isWhitespace = false := by
  intro fuel
  induction fuel with
  | zero => intro n h; omega
  | succ fuel ih =>
    intro n _
    simp only [natDigitsAux]
    by_cases h10 : n < 10
    · rw [if_pos h10]
      refine ⟨Char.ofNat (48 + n), [], rfl, ?_⟩
      interval_cases n <;> decide
    · rw [if_neg h10]
      cases hf : fuel with
      | zero =>
        refine ⟨Char.ofNat (48 + n % 10), [], by simp [natDigitsAux], ?_⟩
        have hm : n % 10 < 10 := Nat.mod_lt n (by omega)
        set k := n % 10 with hk
        interval_cases k <;> decide
      | succ f' =>
        obtain ⟨c, cs, hc, hw⟩ := ih (n / 10) (by omega)
        rw [hf] at hc
        exact ⟨c, cs ++ [Char.ofNat (48 + n % 10)], by rw [hc]; rfl, hw⟩

theorem intToStr_head (p : Int) :
    ∃ c cs, (intToStr p).toList = c :: cs ∧ c.isWhitespace = false := by
  unfold intToStr
  split_ifs with h
  · exact ⟨'-', natDigits p.natAbs, List.toList_asString _, by decide⟩
  · obtain ⟨c, cs, hc, hw⟩ := natDigitsAux_head (p.toNat + 1) p.toNat (by omega)
    exact ⟨c, cs, by rw [List.toList_asString]; exact hc, hw⟩

theorem dropWhile_ne_nil_of_exists {α : Type} {p : α → Bool} :
    ∀ l : List α, (∃ a ∈ l, p a = false) → l.dropWhile p ≠ [] := by
  intro l
  induction l with
  | nil => rintro ⟨a, ha, _⟩; cases ha
  | cons x xs ih =>
    rintro ⟨a, ha, hpa⟩
    rw [List.dropWhile_cons]
    by_cases hx : p x = true
    · rw [if_pos hx]
      rcases List.mem_cons.mp ha with rfl | ha'
      · rw [hx] at hpa; cases hpa
      · exact ih ⟨a, ha', hpa⟩
    · rw [if_neg hx]
      exact List.cons_ne_nil _ _

theorem rstrip_append_of_keep (P m : List Char)
    (h : List.dropWhile Char.isWhitespace m.reverse ≠ []) :
    ((P ++ m).reverse.dropWhile Char.isWhitespace).reverse =
      P ++ (m.reverse.dropWhile Char.isWhitespace).reverse := by
  rw [List.reverse_append, List.dropWhile_append]
  have hemp : (List.dropWhile Char.isWhitespace m.reverse).isEmpty = false := by
    cases hd : List.dropWhile Char.isWhitespace m.reverse with
    | nil => exact absurd hd h
    | cons y ys => rfl
  rw [hemp]
  simp only [Bool.false_eq_true, if_false]
  rw [List.reverse_append, List.reverse_reverse]

theorem pyStrip_begins (p : Int) (d : String) :
    strBegins (intToStr p ++ "% water change")
      (pyStrip (intToStr p ++ "% water change. " ++ d)) := by
  obtain ⟨c, cs, hN, hw⟩ := intToStr_head p
  have hsplit : (intToStr p ++ "% water change. " ++ d).toList =
      ((intToStr p).toList ++ "% water change".toList) ++ ('.' :: ' ' :: d.toList) := by
    show ((intToStr p ++ "% water change. ") ++ d).data = _
    rw [String.data_append, String.data_append]
    have hlit : ("% water change. ").data = "% water change".data ++ ['.', ' '] := by decide
    rw [hlit]
    simp [List.append_assoc]
  have hpre : (intToStr p ++ "% water change").toList =
      (intToStr p).toList ++ "% water change".toList := String.data_append _ _
  show (pyStrip (intToStr p ++ "% water change. " ++ d)).toList.take
      ((intToStr p ++ "% water change").toList.length) =
      (intToStr p ++ "% water change").toList
  unfold pyStrip
  rw [List.toList_asString, hsplit]
  have hlstrip : List.dropWhile Char.isWhitespace
      ((((intToStr p).toList ++ "% water change".toList)) ++ ('.' :: ' ' :: d.toList)) =
      (((intToStr p).toList ++ "% water change".toList)) ++ ('.' :: ' ' :: d.toList) := by
    rw [hN]
    show List.dropWhile Char.isWhitespace
      (c :: (cs ++ "% water change".toList ++ ('.' :: ' ' :: d.toList))) = _
    rw [List.dropWhile_cons, hw]
    simp
  rw [hlstrip]
  have hkeep : List.dropWhile Char.isWhitespace ('.' :: ' ' :: d.toList).reverse ≠ [] := by
    apply dropWhile_ne_nil_of_exists
    exact ⟨'.', by simp, by decide⟩
  rw [rstrip_append_of_keep _ _ hkeep, hpre]
  exact List.take_left _ _

theorem decode_joinComma (xs : List String) (hc : ∀ e ∈ xs, ',' ∉ e.toList)
    (hne : xs ≠ [""]) :
    (if joinComma xs = "" then [] else splitComma (joinComma xs)) = xs := by
  by_cases hnil : xs = []
  · subst hnil; rfl
  · have hls : xs.map String.toList ≠ [] := by simpa using hnil
    have hx : ∀ l ∈ xs.map String.toList, ',' ∉ l := by
      intro l hl
      obtain ⟨e, he, rfl⟩ := List.mem_map.mp hl
      exact hc e he
    have hsplit : List.splitOn ',' (List.intercalate [','] (xs.map String.toList)) =
        xs.map String.toList := List.splitOn_intercalate (xs.map String.toList) ',' hx hls
    by_cases hempty : joinComma xs = ""
    · exfalso
      have h1 : List.intercalate [','] (xs.map String.toList) = [] := by
        calc List.intercalate [','] (xs.map String.toList)
            = (joinComma xs).toList := (List.toList_asString _).symm
          _ = [] := by rw [hempty]; rfl
      have h2 : xs.map String.toList = [[]] := by
        rw [← hsplit, h1]
        rfl
      have h3 : xs = [""] := by
        cases xs with
        | nil => cases h2
        | cons y ys =>
          simp only [List.map] at h2
          injection h2 with hy hys
          have hy' : y = "" := by rw [← String.asString_toList y, hy]; rfl
          rw [List.map_eq_nil_iff] at hys
          rw [hy', hys]
      exact hne h3
    · rw [if_neg hempty]
      unfold splitComma joinComma
      rw [List.toList_asString, hsplit, List.map_map]
      have hmap : ∀ e ∈ xs, (List.asString ∘ String.toList) e = id e :=
        fun e _ => String.asString_toList e
      rw [List.map_congr_left hmap, List.map_id]

/-! ## Claim theorems -/

/-- C4: after the three-step cascade delete of tank `tid` (fish with that
tank_id, then maintenance logs with that tank_id, then the tank row),
`FishManager.get_by_tank` and `MaintenanceManager.get_by_tank` return the
empty sequence and `TankManager.get_by_id` returns absent. -/
theorem c4_cascade_delete (s : Store) (tid : String) :
    FishManager.get_by_tank (cascade_delete_tank s tid) tid = Except.ok []
    ∧ MaintenanceManager.get_by_tank (cascade_delete_tank s tid) tid = Except.ok []
    ∧ TankManager.get_by_id (cascade_delete_tank s tid) tid = Except.ok none := by
  refine ⟨?_, ?_, ?_⟩
  · simp only [FishManager.get_by_tank, cascade_delete_tank, FishManager.delete_by_tank,
      MaintenanceManager.delete_by_tank, TankManager.delete]
    rw [filter_not_filter]
    rfl
  · simp only [MaintenanceManager.get_by_tank, cascade_delete_tank, FishManager.delete_by_tank,
      MaintenanceManager.delete_by_tank, TankManager.delete]
    rw [filter_not_filter]
    rfl
  · simp only [TankManager.get_by_id, cascade_delete_tank, FishManager.delete_by_tank,
      MaintenanceManager.delete_by_tank, TankManager.delete]
    have hnone : List.find? (fun r => r.id == tid)
        (List.filter (fun r : TankRow => ! (r.id == tid)) s.tanks) = none := by
      rw [List.find?_eq_none]
      intro x hx
      rw [List.mem_filter] at hx
      simp only [Bool.not_eq_true'] at hx
      simp [hx.2]
    rw [hnone]

/-- C6: `update` with an entity whose identifier is absent from the store
returns failure and leaves every stored record unchanged; `delete` of an
absent identifier returns failure and leaves the store (hence the collection
size) unchanged — for both TankManager and FishManager. -/
theorem c6_update_delete_nonexistent (s : Store) (t : Tank) (f : Fish) (tid fid : String) :
    ((∀ r ∈ s.tanks, r.id ≠ t.id) → TankManager.update s t = (s, false))
    ∧ ((∀ r ∈ s.fish, r.id ≠ f.id) → FishManager.update s f = (s, false))
    ∧ ((∀ r ∈ s.tanks, r.id ≠ tid) → TankManager.delete s tid = (s, false))
    ∧ ((∀ r ∈ s.fish, r.id ≠ fid) → FishManager.delete s fid = (s, false)) := by
  refine ⟨fun h => ?_, fun h => ?_, fun h => ?_, fun h => ?_⟩
  · have hmap : s.tanks.map (fun r =>
        if r.id == t.id then
          (⟨r.id, t.name, t.size_gallons, t.tank_type, t.location, joinComma t.equipment⟩ : TankRow)
        else r) = s.tanks := by
      rw [List.map_congr_left (g := id) (fun r hr => by simp [h r hr]), List.map_id]
    have hany : s.tanks.any (fun r => r.id == t.id) = false :=
      List.any_eq_false.mpr (fun r hr => by simp [h r hr])
    simp only [TankManager.update, hmap, hany]
  · have hmap : s.fish.map (fun r =>
        if r.id == f.id then
          (⟨r.id, f.name, f.species, f.tank_id, f.date_added, f.birth_date, f.health_status,
            f.size, f.color, f.feeding_preferences, f.notes⟩ : FishRow)
        else r) = s.fish := by
      rw [List.map_congr_left (g := id) (fun r hr => by simp [h r hr]), List.map_id]
    have hany : s.fish.any (fun r => r.id == f.id) = false :=
      List.any_eq_false.mpr (fun r hr => by simp [h r hr])
    simp only [FishManager.update, hmap, hany]
  · have hfil : s.tanks.filter (fun r => ! (r.id == tid)) = s.tanks :=
      List.filter_eq_self.mpr (fun r hr => by simp [h r hr])
    have hany : s.tanks.any (fun r => r.id == tid) = false :=
      List.any_eq_false.mpr (fun r hr => by simp [h r hr])
    simp only [TankManager.delete, hfil, hany]
  · have hfil : s.fish.filter (fun r => ! (r.id == fid)) = s.fish :=
      List.filter_eq_self.mpr (fun r hr => by simp [h r hr])
    have hany : s.fish.any (fun r => r.id == fid) = false :=
      List.any_eq_false.mpr (fun r hr => by simp [h r hr])
    simp only [FishManager.delete, hfil, hany]

/-- C7: `FishManager.update_health_status` returns failure without raising
when the status is not one of the four valid values (leaving the whole store,
in particular the fish's stored health_status, unchanged), and likewise
returns failure when no fish with that identifier exists. -/
theorem c7_update_health_status (s : Store) (fid status : String) :
    (status ∉ VALID_HEALTH_STATUSES →
      FishManager.update_health_status s fid status = (s, false))
    ∧ ((∀ r ∈ s.fish, r.id ≠ fid) →
      FishManager.update_health_status s fid status = (s, false)) := by
  constructor
  · intro h
    simp only [FishManager.update_health_status, if_neg h]
  · intro h
    by_cases hv : status ∈ VALID_HEALTH_STATUSES
    · have hmap : s.fish.map (fun r =>
          if r.id == fid then { r with health_status := status } else r) = s.fish := by
        rw [List.map_congr_left (g := id) (fun r hr => by simp [h r hr]), List.map_id]
      have hany : s.fish.any (fun r => r.id == fid) = false :=
        List.any_eq_false.mpr (fun r hr => by simp [h r hr])
      simp only [FishManager.update_health_status, if_pos hv, hmap, hany]
    · simp only [FishManager.update_health_status, if_neg hv]

/-- C10: `TankManager.update` writes only the tank's own row: the
water-parameters table, the fish table, the maintenance-log table and the
autoincrement counter are untouched, the derived latest-parameters view is
unchanged for every tank, and a tank later observed through `get_by_id`
carries the same current-parameters snapshot as before the update — whatever
`current_parameters` value the passed Tank carried. -/
theorem c10_update_frame (s : Store) (t : Tank) :
    (TankManager.update s t).1.waterParams = s.waterParams
    ∧ (TankManager.update s t).1.fish = s.fish
    ∧ (TankManager.update s t).1.logs = s.logs
    ∧ (TankManager.update s t).1.nextParamId = s.nextParamId
    ∧ (∀ tid, TankManager.get_latest_params (TankManager.update s t).1 tid =
        TankManager.get_latest_params s tid)
    ∧ (∀ tid t', TankManager.get_by_id (TankManager.update s t).1 tid = Except.ok (some t') →
        t'.current_parameters = TankManager.get_latest_params s tid) := by
  refine ⟨rfl, rfl, rfl, rfl, fun tid => rfl, fun tid t' h => ?_⟩
  simp only [TankManager.get_by_id] at h
  cases hfind : List.find? (fun r => r.id == tid) (TankManager.update s t).1.tanks with
  | none => rw [hfind] at h; cases h
  | some r =>
    rw [hfind] at h
    have h' : Except.map
        (fun tk => some { tk with current_parameters :=
          TankManager.get_latest_params (TankManager.update s t).1 tk.id })
        (TankManager.row_to_tank r) = Except.ok (some t') := h
    cases hrt : TankManager.row_to_tank r with
    | error e => rw [hrt] at h'; cases h'
    | ok tk =>
      rw [hrt] at h'
      simp only [Except.map] at h'
      cases h'
      have hid : tk.id = r.id := row_to_tank_ok_id r tk hrt
      have hrid : r.id = tid := by
        have := List.find?_some hfind
        simpa using this
      show TankManager.get_latest_params (TankManager.update s t).1 tk.id =
        TankManager.get_latest_params s tid
      rw [hid, hrid]
      rfl

/-- C3: all four MaintenanceManager query operations return their logs
sorted by event date in non-increasing (most recent first) order, and on a
store holding logs dated 2024-01-01, 2024-03-01, 2024-02-01, `get_all`
yields them in March, February, January order. -/
theorem c3_maintenance_sorted :
    (∀ s l, MaintenanceManager.get_all s = Except.ok l → dateSortedDesc l)
    ∧ (∀ s tid l, MaintenanceManager.get_by_tank s tid = Except.ok l → dateSortedDesc l)
    ∧ (∀ s n l, MaintenanceManager.get_recent s n = Except.ok l → dateSortedDesc l)
    ∧ (∀ s a tid l,
        MaintenanceManager.get_by_activity_type s a tid = Except.ok l → dateSortedDesc l)
    ∧ MaintenanceManager.get_all c3Store = Except.ok [logMar, logFeb, logJan] := by
  refine ⟨?_, ?_, ?_, ?_, ?_⟩
  · intro s l h
    exact sorted_logs_of_mapM s _ l (sortByKeyDesc_sorted _ _) h
  · intro s tid l h
    exact sorted_logs_of_mapM s _ l (sortByKeyDesc_sorted _ _) h
  · intro s n l h
    exact sorted_logs_of_mapM s _ l
      (List.Pairwise.sublist (List.take_sublist _ _) (sortByKeyDesc_sorted _ _)) h
  · intro s a tid l h
    exact sorted_logs_of_mapM s _ l (sortByKeyDesc_sorted _ _) h
  · rfl

theorem sortDesc_append_strict_head {α : Type} (key : α → String) (l : List α) (x : α)
    (h : ∀ y ∈ l, charListLe (key x).toList (key y).toList = false) :
    ∃ tl, sortByKeyDesc key (l ++ [x]) = x :: tl := by
  have hx_mem : x ∈ sortByKeyDesc key (l ++ [x]) :=
    (List.mem_insertionSort _).mpr (List.mem_append_right _ (List.mem_cons_self x []))
  cases hs : sortByKeyDesc key (l ++ [x]) with
  | nil => rw [hs] at hx_mem; cases hx_mem
  | cons w tl =>
    by_cases hwx : w = x
    · exact ⟨tl, by rw [← hwx]⟩
    · exfalso
      have hw : w ∈ l ++ [x] := (List.mem_insertionSort _).mp (hs ▸ List.mem_cons_self w tl)
      have hwl : w ∈ l := by
        rcases List.mem_append.mp hw with h1 | h1
        · exact h1
        · exact absurd (List.mem_singleton.mp h1) hwx
      have hsorted := sortByKeyDesc_sorted key (l ++ [x])
      rw [hs] at hsorted
      have hx_tl : x ∈ tl := by
        rw [hs] at hx_mem
        rcases List.mem_cons.mp hx_mem with h2 | h2
        · exact absurd h2.symm hwx
        · exact h2
      have hrel := List.rel_of_sorted_cons hsorted x hx_tl
      simp only [descByKey] at hrel
      rw [h w hwl] at hrel
      cases hrel

/-- C2 counterexample: on an empty store there is no tank "t1", yet
`update_water_params` reports success. -/
theorem c2_counterexample :
    (TankManager.update_water_params emptyStore "t1" c2Params).2 = true
    ∧ TankManager.get_by_id emptyStore "t1" = Except.ok none :=
  ⟨rfl, rfl⟩

/-- C2 (amended): `TankManager.update_water_params` returns success
unconditionally — also when no tank with that identifier exists — and simply
appends a new water-parameters row; when the supplied reading is strictly
later than every stored reading for that tank, it becomes the tank's
latest-parameters snapshot. -/
theorem c2_amended (s : Store) (tid : String) (p : WaterParameters) :
    (TankManager.update_water_params s tid p).2 = true
    ∧ (TankManager.update_water_params s tid p).1.waterParams =
        s.waterParams ++ [⟨s.nextParamId, tid, p.date_tested, p.temperature, p.ph,
          p.ammonia, p.nitrite, p.nitrate, p.salinity⟩]
    ∧ ((∀ w ∈ s.waterParams, w.tank_id = tid →
          charListLe p.date_tested.toList w.date_tested.toList = false) →
        TankManager.get_latest_params (TankManager.update_water_params s tid p).1 tid =
          some p) := by
  refine ⟨rfl, rfl, fun h => ?_⟩
  have harg : ((TankManager.update_water_params s tid p).1.waterParams.filter
      (fun w => w.tank_id == tid)) =
      s.waterParams.filter (fun w => w.tank_id == tid) ++
        [⟨s.nextParamId, tid, p.date_tested, p.temperature, p.ph,
          p.ammonia, p.nitrite, p.nitrate, p.salinity⟩] := by
    show (s.waterParams ++ [_]).filter _ = _
    rw [List.filter_append]
    simp
  obtain ⟨tl, htl⟩ := sortDesc_append_strict_head (fun w : WaterParamRow => w.date_tested)
    (s.waterParams.filter (fun w => w.tank_id == tid))
    ⟨s.nextParamId, tid, p.date_tested, p.temperature, p.ph,
      p.ammonia, p.nitrite, p.nitrate, p.salinity⟩
    (by
      intro y hy
      rw [List.mem_filter] at hy
      exact h y hy.1 (by simpa using hy.2))
  simp only [TankManager.get_latest_params, harg, htl]

/-- C5 counterexample: constructing a Tank with an empty name and a Fish
with empty name and species succeeds — `__post_init__` never checks the
required strings for emptiness. -/
theorem c5_counterexample :
    (mkTank "t1" "" 10 "freshwater" "" [] none).isOk = true
    ∧ (mkFish "f1" "" "" "t1" "2024-01-01" none "healthy" none none none none).isOk = true :=
  ⟨rfl, rfl⟩

/-- C5 (amended): entity construction validates immediately, but only the
enum and size invariants — invalid `tank_type` or non-positive
`size_gallons` raise for Tank and an invalid `health_status` raises for
Fish, while empty required strings (Tank.name, Fish.name, Fish.species) are
accepted without any error. -/
theorem c5_amended (id name : String) (sz : Rat) (tt loc : String) (eqp : List String)
    (cp : Option WaterParameters) (fid fname fsp ftid fda : String) (fbd : Option String)
    (fhs : String) (fsz fcol ffp fnt : Option String) :
    (tt ∈ VALID_TANK_TYPES → 0 < sz →
      mkTank id name sz tt loc eqp cp = Except.ok ⟨id, name, sz, tt, loc, eqp, cp⟩)
    ∧ (tt ∉ VALID_TANK_TYPES →
      mkTank id name sz tt loc eqp cp = Except.error "Invalid tank type")
    ∧ (tt ∈ VALID_TANK_TYPES → sz ≤ 0 →
      mkTank id name sz tt loc eqp cp = Except.error "Tank size must be positive")
    ∧ (fhs ∈ VALID_HEALTH_STATUSES →
      mkFish fid fname fsp ftid fda fbd fhs fsz fcol ffp fnt =
        Except.ok ⟨fid, fname, fsp, ftid, fda, fbd, fhs, fsz, fcol, ffp, fnt⟩)
    ∧ (fhs ∉ VALID_HEALTH_STATUSES →
      mkFish fid fname fsp ftid fda fbd fhs fsz fcol ffp fnt =
        Except.error "Invalid health status") := by
  refine ⟨fun h1 h2 => ?_, fun h1 => ?_, fun h1 h2 => ?_, fun h1 => ?_, fun h1 => ?_⟩
  · rw [mkTank, if_pos h1, if_neg (not_le.mpr h2)]
  · rw [mkTank, if_neg h1]
  · rw [mkTank, if_pos h1, if_pos h2]
  · rw [mkFish, if_pos h1]
  · rw [mkFish, if_neg h1]

/-- C1 counterexample: a stored collection with one well-formed fish record
and one whose health_status is invalid — `get_all` propagates the conversion
error (aborting the whole load) instead of returning the remaining
well-formed record. -/
theorem c1_counterexample :
    FishManager.get_all c1Store = Except.error "Invalid health status"
    ∧ FishManager.row_to_fish c1GoodRow = Except.ok c1GoodFish :=
  ⟨rfl, rfl⟩

/-- C1 (amended): when converting one raw persisted record to a typed entity
fails, the load operations do not drop that record — the conversion failure
propagates to the caller and the whole load aborts with an error, for
FishManager.get_all and get_by_tank, TankManager.get_all and
MaintenanceManager.get_all alike. -/
theorem c1_amended (s : Store) :
    ((∃ r ∈ s.fish, (FishManager.row_to_fish r).isOk = false) →
      ∃ e, FishManager.get_all s = Except.error e)
    ∧ (∀ tid, (∃ r ∈ s.fish, r.tank_id = tid ∧ (FishManager.row_to_fish r).isOk = false) →
      ∃ e, FishManager.get_by_tank s tid = Except.error e)
    ∧ ((∃ r ∈ s.tanks, (TankManager.row_to_tank r).isOk = false) →
      ∃ e, TankManager.get_all s = Except.error e)
    ∧ ((∃ r ∈ s.logs, (MaintenanceManager.row_to_log s r).isOk = false) →
      ∃ e, MaintenanceManager.get_all s = Except.error e) := by
  refine ⟨?_, ?_, ?_, ?_⟩
  · rintro ⟨r, hr, hbad⟩
    exact exceptMapM_error_of_mem _ _ r hr hbad
  · rintro tid ⟨r, hr, htid, hbad⟩
    exact exceptMapM_error_of_mem _ _ r (List.mem_filter.mpr ⟨hr, by simp [htid]⟩) hbad
  · rintro ⟨r, hr, hbad⟩
    apply exceptMapM_error_of_mem _ _ r hr
    cases hrt : TankManager.row_to_tank r with
    | error e => rfl
    | ok tk => rw [hrt] at hbad; simp [Except.isOk, Except.toBool] at hbad
  · rintro ⟨r, hr, hbad⟩
    exact exceptMapM_error_of_mem _ _ r ((List.mem_insertionSort _).mpr hr) hbad

/-- C9 counterexample: percentage 0 is supplied but falsy in Python
(`if percentage:`), so the description stays empty and does not begin with
"0% water change". -/
theorem c9_counterexample :
    (MaintenanceManager.log_water_change emptyStore "t1" "" (some 0) "m1"
      "2024-01-01T00:00:00").2.description = ""
    ∧ ¬ strBegins "0% water change" "" :=
  ⟨rfl, by unfold strBegins; decide⟩

/-- C9 (amended): whenever a nonzero percentage N is supplied (Python
truthiness excludes 0 and None), `log_water_change` produces and persists a
MaintenanceLog with activity_type "water_change" whose description begins
with the phrase "N% water change". -/
theorem c9_log_water_change (s : Store) (tid d : String) (p : Int) (fresh now : String)
    (hp : p ≠ 0) :
    (MaintenanceManager.log_water_change s tid d (some p) fresh now).2.activity_type =
      "water_change"
    ∧ strBegins (intToStr p ++ "% water change")
        (MaintenanceManager.log_water_change s tid d (some p) fresh now).2.description
    ∧ (MaintenanceManager.log_water_change s tid d (some p) fresh now).1.logs =
        s.logs ++ [⟨fresh, tid, now, "water_change",
          (MaintenanceManager.log_water_change s tid d (some p) fresh now).2.description,
          none⟩] := by
  refine ⟨rfl, ?_, rfl⟩
  show strBegins (intToStr p ++ "% water change")
    (MaintenanceManager.water_change_description d (some p))
  rw [MaintenanceManager.water_change_description, if_neg hp]
  exact pyStrip_begins p d

/-- C8 counterexample: a validly constructed Tank carrying a
current-parameters snapshot, saved through `add` into an empty store and
loaded back by its identifier, comes back with `current_parameters = none`:
the snapshot field is not persisted by `add` and is recomputed from the
(empty) water_parameters table, so the loaded record is not equal to the
original in every field. -/
theorem c8_counterexample :
    TankManager.get_by_id (TankManager.add emptyStore c8Tank) "t1" =
      Except.ok (some ⟨"t1", "Reef", 10, "freshwater", "", [], none⟩)
    ∧ c8Tank.current_parameters = some c8WP :=
  ⟨rfl, rfl⟩

/-- C8 (amended): save-then-load yields a record equal to the original in
every field — except `Tank.current_parameters`, which is recomputed from the
stored water-parameter rows on load instead of being persisted — modulo the
equipment-list/comma-string encoding caveat (no commas inside equipment
names, and not the single-empty-string list).  For Fish the round trip is
exact; for MaintenanceLog the persisted row (and, when present, its
water-parameters row) decodes back to a log equal in every field. -/
theorem c8_roundtrip :
    (∀ (s : Store) (t : Tank), t.tank_type ∈ VALID_TANK_TYPES → 0 < t.size_gallons →
      (∀ r ∈ s.tanks, r.id ≠ t.id) → (∀ e ∈ t.equipment, ',' ∉ e.toList) →
      t.equipment ≠ [""] →
      TankManager.get_by_id (TankManager.add s t) t.id =
        Except.ok (some { t with current_parameters := TankManager.get_latest_params s t.id }))
    ∧ (∀ (s : Store) (f : Fish), f.health_status ∈ VALID_HEALTH_STATUSES →
      (∀ r ∈ s.fish, r.id ≠ f.id) →
      FishManager.get_by_id (FishManager.add s f) f.id = Except.ok (some f))
    ∧ (∀ (s : Store) (log : MaintenanceLog), log.activity_type ∈ VALID_ACTIVITY_TYPES →
      (∀ w ∈ s.waterParams, w.rowid ≠ s.nextParamId) → 0 < s.nextParamId →
      ∃ r, (MaintenanceManager.add s log).logs = s.logs ++ [r]
        ∧ MaintenanceManager.row_to_log (MaintenanceManager.add s log) r = Except.ok log) := by
  refine ⟨?_, ?_, ?_⟩
  · intro s t htt hsz hfresh hcomma hne
    have hfind : List.find? (fun r => r.id == t.id) (TankManager.add s t).tanks =
        some ⟨t.id, t.name, t.size_gallons, t.tank_type, t.location, joinComma t.equipment⟩ := by
      show List.find? _ (s.tanks ++ [_]) = _
      rw [List.find?_append, List.find?_eq_none.mpr (fun x hx => by simp [hfresh x hx])]
      simp [List.find?]
    have hrt : TankManager.row_to_tank
        ⟨t.id, t.name, t.size_gallons, t.tank_type, t.location, joinComma t.equipment⟩ =
        Except.ok ⟨t.id, t.name, t.size_gallons, t.tank_type, t.location, t.equipment, none⟩ := by
      simp only [TankManager.row_to_tank]
      rw [decode_joinComma t.equipment hcomma hne]
      rw [mkTank, if_pos htt, if_neg (not_le.mpr hsz)]
    simp only [TankManager.get_by_id, hfind, hrt, Except.map]
    rfl
  · intro s f hhs hfresh
    have hfind : List.find? (fun r => r.id == f.id) (FishManager.add s f).fish =
        some ⟨f.id, f.name, f.species, f.tank_id, f.date_added, f.birth_date,
          f.health_status, f.size, f.color, f.feeding_preferences, f.notes⟩ := by
      show List.find? _ (s.fish ++ [_]) = _
      rw [List.find?_append, List.find?_eq_none.mpr (fun x hx => by simp [hfresh x hx])]
      simp [List.find?]
    have hrf : FishManager.row_to_fish
        ⟨f.id, f.name, f.species, f.tank_id, f.date_added, f.birth_date,
          f.health_status, f.size, f.color, f.feeding_preferences, f.notes⟩ =
        Except.ok f := by
      simp only [FishManager.row_to_fish]
      rw [mkFish, if_pos hhs]
    simp only [FishManager.get_by_id, hfind, hrf, Except.map]
  · intro s log hval hfresh hpos
    cases hwp : log.water_params with
    | none =>
      refine ⟨⟨log.id, log.tank_id, log.date, log.activity_type, log.description, none⟩,
        by simp only [MaintenanceManager.add, hwp], ?_⟩
      simp only [MaintenanceManager.row_to_log]
      rw [mkLog, if_pos hval]
      rw [← hwp]
    | some wp =>
      refine ⟨⟨log.id, log.tank_id, log.date, log.activity_type, log.description,
        some s.nextParamId⟩,
        by simp only [MaintenanceManager.add, hwp], ?_⟩
      have hfind : List.find? (fun w => w.rowid == s.nextParamId)
          ((MaintenanceManager.add s log).waterParams) =
          some ⟨s.nextParamId, log.tank_id, wp.date_tested, wp.temperature, wp.ph,
            wp.ammonia, wp.nitrite, wp.nitrate, wp.salinity⟩ := by
        simp only [MaintenanceManager.add, hwp]
        rw [List.find?_append, List.find?_eq_none.mpr (fun x hx => by simp [hfresh x hx])]
        simp [List.find?]
      simp only [MaintenanceManager.row_to_log]
      rw [if_neg (by omega : ¬ s.nextParamId = 0), hfind]
      rw [mkLog, if_pos hval]
      show Except.ok (⟨log.id, log.tank_id, log.date, log.activity_type, log.description,
        some wp⟩ : MaintenanceLog) = Except.ok log
      rw [← hwp]

/-- Witness for C3 at a concrete store. -/
theorem c3_witness :
    dateSortedDesc [logMar, logFeb, logJan]
    ∧ dateSortedDesc [logMar, logFeb]
    ∧ dateSortedDesc [logMar, logFeb, logJan]
    ∧ dateSortedDesc [logMar, logFeb, logJan] :=
  ⟨c3_maintenance_sorted.1 c3Store _ rfl,
   c3_maintenance_sorted.2.2.1 c3Store 2 _ rfl,
   c3_maintenance_sorted.2.1 c3Store "t1" _ rfl,
   c3_maintenance_sorted.2.2.2.1 c3Store "feeding" none _ rfl⟩

/-- Witness for C6 at a concrete store. -/
theorem c6_witness :
    TankManager.update c6Store c6Tank = (c6Store, false)
    ∧ FishManager.update c6Store c6Fish = (c6Store, false)
    ∧ TankManager.delete c6Store "t2" = (c6Store, false)
    ∧ FishManager.delete c6Store "f2" = (c6Store, false) :=
  ⟨(c6_update_delete_nonexistent c6Store c6Tank c6Fish "t2" "f2").1 (by decide),
   (c6_update_delete_nonexistent c6Store c6Tank c6Fish "t2" "f2").2.1 (by decide),
   (c6_update_delete_nonexistent c6Store c6Tank c6Fish "t2" "f2").2.2.1 (by decide),
   (c6_update_delete_nonexistent c6Store c6Tank c6Fish "t2" "f2").2.2.2 (by decide)⟩

/-- Witness for C7 at a concrete store. -/
theorem c7_witness :
    FishManager.update_health_status c6Store "f1" "bogus" = (c6Store, false)
    ∧ FishManager.update_health_status c6Store "f9" "sick" = (c6Store, false) :=
  ⟨(c7_update_health_status c6Store "f1" "bogus").1 (by decide),
   (c7_update_health_status c6Store "f9" "sick").2 (by decide)⟩

/-- Witness for C10 at a concrete store. -/
theorem c10_witness :
    (TankManager.update c6Store c10Tank).1.waterParams = c6Store.waterParams
    ∧ (⟨"t1", "Gamma", 30, "brackish", "closet", ["filter"], none⟩ : Tank).current_parameters =
        TankManager.get_latest_params c6Store "t1" :=
  ⟨(c10_update_frame c6Store c10Tank).1,
   (c10_update_frame c6Store c10Tank).2.2.2.2.2 "t1"
     ⟨"t1", "Gamma", 30, "brackish", "closet", ["filter"], none⟩ rfl⟩

/-- Witness for C1 (amended) at concrete stores with one malformed record. -/
theorem c1_witness :
    (∃ e, FishManager.get_all c1Store = Except.error e)
    ∧ (∃ e, FishManager.get_by_tank c1Store "t1" = Except.error e)
    ∧ (∃ e, TankManager.get_all c1TankStore = Except.error e)
    ∧ (∃ e, MaintenanceManager.get_all c1LogStore = Except.error e) :=
  ⟨(c1_amended c1Store).1 ⟨c1BadRow, by decide, by decide⟩,
   (c1_amended c1Store).2.1 "t1" ⟨c1BadRow, by decide, by decide, by decide⟩,
   (c1_amended c1TankStore).2.2.1 ⟨c1BadTankRow, by decide, by decide⟩,
   (c1_amended c1LogStore).2.2.2 ⟨c1BadLogRow, by decide, by decide⟩⟩

/-- Witness for C2 (amended) at a concrete store with one earlier reading. -/
theorem c2_witness :
    (TankManager.update_water_params c2WitStore "t1" c2NewParams).2 = true
    ∧ (TankManager.update_water_params c2WitStore "t1" c2NewParams).1.waterParams =
        c2WitStore.waterParams ++
          [⟨2, "t1", "2024-06-01T00:00:00", some 78, none, none, none, none, none⟩]
    ∧ TankManager.get_latest_params
        (TankManager.update_water_params c2WitStore "t1" c2NewParams).1 "t1" =
        some c2NewParams :=
  ⟨(c2_amended c2WitStore "t1" c2NewParams).1,
   (c2_amended c2WitStore "t1" c2NewParams).2.1,
   (c2_amended c2WitStore "t1" c2NewParams).2.2 (by decide)⟩

/-- Witness for C5 (amended) at concrete construction inputs. -/
theorem c5_witness :
    mkTank "t1" "" 10 "freshwater" "loc" [] none =
      Except.ok ⟨"t1", "", 10, "freshwater", "loc", [], none⟩
    ∧ mkTank "t2" "X" 10 "reef" "" [] none = Except.error "Invalid tank type"
    ∧ mkTank "t3" "X" 0 "freshwater" "" [] none = Except.error "Tank size must be positive"
    ∧ mkFish "f1" "" "" "t1" "2024-01-01" none "healthy" none none none none =
        Except.ok ⟨"f1", "", "", "t1", "2024-01-01", none, "healthy", none, none, none, none⟩
    ∧ mkFish "f2" "N" "S" "t1" "2024-01-01" none "bogus" none none none none =
        Except.error "Invalid health status" :=
  ⟨(c5_amended "t1" "" 10 "freshwater" "loc" [] none "f1" "" "" "t1" "2024-01-01" none
      "healthy" none none none none).1 (by decide) (by decide),
   (c5_amended "t2" "X" 10 "reef" "" [] none "f1" "" "" "t1" "2024-01-01" none
      "healthy" none none none none).2.1 (by decide),
   (c5_amended "t3" "X" 0 "freshwater" "" [] none "f1" "" "" "t1" "2024-01-01" none
      "healthy" none none none none).2.2.1 (by decide) (by decide),
   (c5_amended "t1" "" 10 "freshwater" "loc" [] none "f1" "" "" "t1" "2024-01-01" none
      "healthy" none none none none).2.2.2.1 (by decide),
   (c5_amended "t1" "" 10 "freshwater" "loc" [] none "f2" "N" "S" "t1" "2024-01-01" none
      "bogus" none none none none).2.2.2.2 (by decide)⟩

/-- Witness for C8 (amended) at concrete entities and the empty store. -/
theorem c8_witness :
    TankManager.get_by_id (TankManager.add emptyStore c8Tank) "t1" =
      Except.ok (some { c8Tank with current_parameters :=
        TankManager.get_latest_params emptyStore "t1" })
    ∧ FishManager.get_by_id (FishManager.add emptyStore c6Fish) "f2" =
        Except.ok (some c6Fish)
    ∧ (∃ r, (MaintenanceManager.add emptyStore c8Log).logs = emptyStore.logs ++ [r]
        ∧ MaintenanceManager.row_to_log (MaintenanceManager.add emptyStore c8Log) r =
          Except.ok c8Log) :=
  ⟨c8_roundtrip.1 emptyStore c8Tank (by decide) (by decide) (by decide) (by decide) (by decide),
   c8_roundtrip.2.1 emptyStore c6Fish (by decide) (by decide),
   c8_roundtrip.2.2 emptyStore c8Log (by decide) (by decide) (by decide)⟩

/-- Witness for C9 (amended) at the concrete spec example
`log_water_change(tankId, "", percentage=25)`. -/
theorem c9_witness :
    (MaintenanceManager.log_water_change emptyStore "t1" "" (some 25) "m1"
      "2024-01-01T00:00:00").2.activity_type = "water_change"
    ∧ strBegins "25% water change"
        (MaintenanceManager.log_water_change emptyStore "t1" "" (some 25) "m1"
          "2024-01-01T00:00:00").2.description
    ∧ (MaintenanceManager.log_water_change emptyStore "t1" "" (some 25) "m1"
        "2024-01-01T00:00:00").2.description = "25% water change." :=
  ⟨(c9_log_water_change emptyStore "t1" "" 25 "m1" "2024-01-01T00:00:00" (by decide)).1,
   (c9_log_water_change emptyStore "t1" "" 25 "m1" "2024-01-01T00:00:00" (by decide)).2.1,
   rfl⟩

/-- The log built by `log_water_change` does satisfy the constructor
validation that the Python code runs on it, so modelling the construction
without an error case is faithful. -/
theorem log_water_change_valid (s : Store) (tank_id description : String)
    (percentage : Option Int) (fresh_id now : String) :
    mkLog fresh_id tank_id now "water_change"
      (MaintenanceManager.water_change_description description percentage) none =
      Except.ok (MaintenanceManager.log_water_change s tank_id description percentage
        fresh_id now).2 := by
  simp [mkLog, VALID_ACTIVITY_TYPES, MaintenanceManager.log_water_change]
